import Mathlib

/-
  Verification development for the somfy_protexial client
  (custom_components/somfy_protexial/protexial.py and const.py).

  The stateful, network-facing code is shallowly embedded: every HTTP
  round-trip consumes the next element of an explicit `script` of
  responses (an empty script models a transport failure, i.e. aiohttp's
  ClientError).  Python exceptions are modelled as values of `Err`;
  mutation of `self.cookie` is threaded through an explicit state `St`.
  The mutually recursive call wrapper `__do_call` / `__login` /
  `get_challenge` is given a structural fuel argument; every theorem
  either supplies enough fuel explicitly or holds for all fuel values.
-/

/-- Error-page code tokens, from `const.SomfyError` (a `str` Enum: comparisons
in the source are against the parenthesized hex strings). -/
def somfyWrongCode : String := "(0x0B00)"

def somfyMaxLoginAttempts : String := "(0x0904)"

def somfyWrongCredentials : String := "(0x0812)"

def somfySessionAlreadyOpen : String := "(0x0902)"

def somfyNotAuthorized : String := "(0x0903)"

def somfyUnknownParameter : String := "(0x1003)"

/-- `const.LIST_ELEMENTS`. -/
def LIST_ELEMENTS : String := "/fr/u_plistelmt.htm"

/-- `const.LIST_ELEMENTS_PRINT`. -/
def LIST_ELEMENTS_PRINT : String := "/fr/p_ulistelem.htm"

/-- `const.LIST_ELEMENTS_ALT`. -/
def LIST_ELEMENTS_ALT : String := "/fr/u_listelmt.htm"

/-- Python exceptions crossing our model's boundaries: `somfy m` is
`SomfyException(m)`; `keyError k` is a raw Python `KeyError(k)` (any other
exception kinds the modelled paths can raise are not reachable). -/
inductive Err where
  | somfy (msg : String)
  | keyError (key : String)
deriving DecidableEq, Repr

/-- Python's `str(KeyError(k))` is the repr of the key, `'k'`. -/
def pyStrKeyError (k : String) : String := "'" ++ k ++ "'"

/-- `__do_call`'s final `except Exception` clause: a `SomfyException` is
re-raised as is, any other exception (here: `KeyError` from the challenge
table lookup in `__login`) is wrapped into the catch-all message. -/
def wrapErr : Err → Err
  | .somfy m => .somfy m
  | .keyError k => .somfy ("Something really wrong happened! - " ++ pyStrKeyError k)

/-- Logical pages, from `const.Page`. -/
inductive Page where
  | login | logout | pilotage | status | error | elements
  | challengeCard | version | default
deriving DecidableEq, Repr

/-- The argument of `__do_call`: either a `Page` enum member or a raw path
string (all raw strings passed in the source start with "/"). -/
inductive PageRef where
  | page (p : Page)
  | raw (s : String)
deriving DecidableEq, Repr

inductive Method where
  | get | post
deriving DecidableEq, Repr

/-- The per-variant adapter surface used by `protexial.py` (the three
concrete adapter files `protexial_api.py` / `protexial_io_api.py` /
`protexiom_api.py` are not part of the sources; `protexial.py` only relies
on this capability set, so the adapter is kept abstract as a record of
path/encoding data, per spec section 4.3). -/
structure Api where
  loginPath : String
  logoutPath : String
  pilotagePath : String
  statusPath : String
  errorPath : String
  challengeCardPath : String
  defaultPath : String
  versionPath : Option String
  encoding : String
deriving DecidableEq, Repr

/-- `self.api.get_page(page)` for the pages `__do_call` can be asked to
resolve (`Page.VERSION` may be `None` in the source; callers guard for it,
so the `""` placeholder is never exercised). -/
def Api.getPage (api : Api) : Page → String
  | .login => api.loginPath
  | .logout => api.logoutPath
  | .pilotage => api.pilotagePath
  | .status => api.statusPath
  | .error => api.errorPath
  | .elements => ""
  | .challengeCard => api.challengeCardPath
  | .version => api.versionPath.getD ""
  | .default => api.defaultPath

/-- Path resolution at the top of `__do_call`: a raw string starting with
"/" bypasses the adapter (every raw string the source passes does). -/
def resolvePath (api : Api) : PageRef → String
  | .page p => api.getPage p
  | .raw s => s

/-- One scripted HTTP response.  The body is represented by the views the
client extracts from it: the response path (`response.real_url.path`), the
error-code element text when the error page's selector matches
(`none` models an absent element), the `SET-COOKIE` header, the login-page
challenge element text (`none` models an empty pyquery selection), the
challenge-card cell texts, and the raw bytes (`resp.read()`). -/
structure Response where
  status : Nat
  path : String
  errorCode : Option String
  setCookie : Option String
  challengeText : Option String
  cells : List String
  bodyBytes : List Nat
deriving DecidableEq, Repr

/-- Mutable client state: `self.cookie`. -/
structure St where
  cookie : Option String
deriving DecidableEq, Repr

/-- Python truthiness of `self.cookie` (`None` and `""` are falsy). -/
def cookieTruthy : Option String → Bool
  | none => false
  | some s => decide (s ≠ "")

/-- Result of one modelled operation: the Python return value or the
escaping exception, the state and unconsumed script afterwards, and two
instrumentation counters (number of `__login` invocations entered, number
of `logout` invocations entered). -/
structure Outcome (α : Type) where
  res : Except Err α
  st : St
  script : List Response
  logins : Nat
  logouts : Nat
deriving Repr

mutual

/-- `SomfyProtexial.__do_call(method, page, headers, data, retry, login,
authenticated)`.  Transport failure (exhausted script) models
`ClientError`; the branch structure mirrors protexial.py lines 100-203.
Form payloads and headers carry no information the scripted responses
depend on, so they are not threaded through. -/
def doCall : Nat → Api → (String → Option String) → St → List Response →
    Method → PageRef → Bool → Bool → Bool → Outcome Response
  | 0, _, _, st, script, _, _, _, _, _ =>
      ⟨.error (.somfy "recursion limit"), st, script, 0, 0⟩
  | fuel+1, api, codes, st, script, m, page, auth, retry, login =>
      let path := resolvePath api page
      match script with
      | [] =>
          ⟨.error (.somfy ("Error fetching information from " ++ path ++
            " - connection error")), st, [], 0, 0⟩
      | r :: rest =>
          if r.status ≠ 200 then
            ⟨.error (.somfy ("Http error (" ++ toString r.status ++ ")")),
              st, rest, 0, 0⟩
          else if r.path = api.defaultPath ∧ retry then
            -- default-page redirection => login then retry once
            let L := loginFn fuel api codes st rest none
            match L.res with
            | .ok _ =>
                let R := doCall fuel api codes L.st L.script m page auth false false
                ⟨R.res, R.st, R.script, L.logins + R.logins, L.logouts + R.logouts⟩
            | .error e =>
                ⟨.error (wrapErr e), L.st, L.script, L.logins, L.logouts⟩
          else if r.path = api.errorPath then
            match r.errorCode with
            | none => ⟨.error (.somfy "Unknown error"), st, rest, 0, 0⟩
            | some code =>
                if code = somfyNotAuthorized ∧ cookieTruthy st.cookie = false ∧ retry then
                  let L := loginFn fuel api codes st rest none
                  match L.res with
                  | .ok _ =>
                      let R := doCall fuel api codes L.st L.script m page auth false false
                      ⟨R.res, R.st, R.script, L.logins + R.logins, L.logouts + R.logouts⟩
                  | .error e =>
                      ⟨.error (wrapErr e), L.st, L.script, L.logins, L.logouts⟩
                else if code = somfySessionAlreadyOpen then
                  if retry then
                    -- POST the reset-session payload to the error page, unauthenticated
                    let X := doCall fuel api codes st rest .post (.page .error) false false false
                    match X.res with
                    | .error e =>
                        ⟨.error (wrapErr e), X.st, X.script, X.logins, X.logouts⟩
                    | .ok _ =>
                        let st1 : St := ⟨none⟩
                        if login then
                          let L := loginFn fuel api codes st1 X.script none
                          match L.res with
                          | .error e =>
                              ⟨.error (wrapErr e), L.st, L.script,
                                X.logins + L.logins, X.logouts + L.logouts⟩
                          | .ok _ =>
                              let R := doCall fuel api codes L.st L.script m page auth false login
                              ⟨R.res, R.st, R.script, X.logins + L.logins + R.logins,
                                X.logouts + L.logouts + R.logouts⟩
                        else
                          let R := doCall fuel api codes st1 X.script m page auth false login
                          ⟨R.res, R.st, R.script, X.logins + R.logins,
                            X.logouts + R.logouts⟩
                  else
                    ⟨.error (.somfy "Too many login retries"), st, rest, 0, 0⟩
                else if code = somfyWrongCredentials then
                  ⟨.error (.somfy "Login failed: Wrong credentials"), st, rest, 0, 0⟩
                else if code = somfyMaxLoginAttempts then
                  ⟨.error (.somfy "Login failed: Max attempt count reached"), st, rest, 0, 0⟩
                else if code = somfyWrongCode then
                  ⟨.error (.somfy "Login failed: Wrong code"), st, rest, 0, 0⟩
                else if code = somfyUnknownParameter then
                  ⟨.error (.somfy "Command failed: Unknown parameter"), st, rest, 0, 0⟩
                else
                  ⟨.error (.somfy ("Command failed: Unknown errorCode: " ++ code)),
                    st, rest, 0, 0⟩
          else
            ⟨.ok r, st, rest, 0, 0⟩

/-- `SomfyProtexial.__login(username, password, code)`: clears the cookie,
fetches the challenge when no explicit code is given, looks it up in the
code table (`self.codes[challenge]`, a raw dict access: a miss raises
`KeyError`), POSTs the login form with `retry=False, login=False`, and
stores the `SET-COOKIE` header. -/
def loginFn : Nat → Api → (String → Option String) → St → List Response →
    Option String → Outcome Unit
  | 0, _, _, st, script, _ =>
      ⟨.error (.somfy "recursion limit"), st, script, 0, 0⟩
  | fuel+1, api, codes, _, script, codeArg =>
      let st0 : St := ⟨none⟩
      match codeArg with
      | none =>
          let C := getChallengeFn fuel api codes st0 script
          match C.res with
          | .error e => ⟨.error e, C.st, C.script, 1 + C.logins, C.logouts⟩
          | .ok ch =>
              match codes ch with
              | none => ⟨.error (.keyError ch), C.st, C.script, 1 + C.logins, C.logouts⟩
              | some _ =>
                  let P := doCall fuel api codes C.st C.script .post (.page .login) true false false
                  match P.res with
                  | .error e =>
                      ⟨.error e, P.st, P.script, 1 + C.logins + P.logins, C.logouts + P.logouts⟩
                  | .ok resp =>
                      ⟨.ok (), ⟨resp.setCookie⟩, P.script,
                        1 + C.logins + P.logins, C.logouts + P.logouts⟩
      | some _ =>
          let P := doCall fuel api codes st0 script .post (.page .login) true false false
          match P.res with
          | .error e => ⟨.error e, P.st, P.script, 1 + P.logins, P.logouts⟩
          | .ok resp => ⟨.ok (), ⟨resp.setCookie⟩, P.script, 1 + P.logins, P.logouts⟩

/-- `SomfyProtexial.get_challenge`: fetches the login page through the call
wrapper (`retry` defaults to True, `login=False`) and returns the challenge
element text; an empty pyquery selection (falsy) raises "Challenge not
found". -/
def getChallengeFn : Nat → Api → (String → Option String) → St → List Response →
    Outcome String
  | 0, _, _, st, script =>
      ⟨.error (.somfy "recursion limit"), st, script, 0, 0⟩
  | fuel+1, api, codes, st, script =>
      let R := doCall fuel api codes st script .get (.page .login) true true false
      match R.res with
      | .error e => ⟨.error e, R.st, R.script, R.logins, R.logouts⟩
      | .ok resp =>
          match resp.challengeText with
          | some t => ⟨.ok t, R.st, R.script, R.logins, R.logouts⟩
          | none => ⟨.error (.somfy "Challenge not found"), R.st, R.script, R.logins, R.logouts⟩

end

/-- `SomfyProtexial.logout`: GET the logout page with `retry=False,
login=False`, then clear the cookie (only reached when the call returns). -/
def logoutFn (fuel : Nat) (api : Api) (codes : String → Option String)
    (st : St) (script : List Response) : Outcome Unit :=
  let R := doCall fuel api codes st script .get (.page .logout) true false false
  match R.res with
  | .error e => ⟨.error e, R.st, R.script, R.logins, 1 + R.logouts⟩
  | .ok _ => ⟨.ok (), ⟨none⟩, R.script, R.logins, 1 + R.logouts⟩

/-! ## Status parser (`get_status` / `filter_ascii`) -/

/-- `Status` container; field defaults are the class attribute defaults.
Fields are `Option String` because `filter_ascii(None)` returns `None`
(an XML child with no text) and the source stores that verbatim. -/
structure Status where
  zoneA : Option String := some "off"
  zoneB : Option String := some "off"
  zoneC : Option String := some "off"
  battery : Option String := some "ok"
  radio : Option String := some "ok"
  door : Option String := some "ok"
  alarm : Option String := some "ok"
  box : Option String := some "ok"
  gsm : Option String := some "gsm connect au rseau"
  recgsm : Option String := some "4"
  opegsm : Option String := some "orange"
  camera : Option String := some "disabled"
deriving DecidableEq, Repr

/-- Membership in Python's `string.printable` (ASCII digits, letters,
punctuation, and the whitespace ' \t\n\r\x0b\x0c'). -/
def printableAscii (c : Char) : Bool :=
  decide ((32 ≤ c.toNat ∧ c.toNat ≤ 126) ∨ (9 ≤ c.toNat ∧ c.toNat ≤ 13))

/-- `str.lower` restricted to the ASCII range (the only characters that
survive the printable filter), matching `Char.toLower`. -/
def filterAsciiStr (v : String) : String :=
  String.mk (((v.data.filter printableAscii).map Char.toLower))

/-- `SomfyProtexial.filter_ascii`: `None` passes through, otherwise keep
printable-ASCII characters and lower-case the result. -/
def filterAscii : Option String → Option String
  | none => none
  | some v => some (filterAsciiStr v)

/-- One iteration of the `for child in response` match statement in
`get_status` (lines 360-386): recognized tags overwrite the corresponding
field with the filtered text, every other tag leaves the record unchanged. -/
def applyStatusChild (st : Status) (tag : String) (txt : Option String) : Status :=
  if tag = "defaut0" then { st with battery := filterAscii txt }
  else if tag = "defaut1" then { st with radio := filterAscii txt }
  else if tag = "defaut2" then { st with door := filterAscii txt }
  else if tag = "defaut3" then { st with alarm := filterAscii txt }
  else if tag = "defaut4" then { st with box := filterAscii txt }
  else if tag = "zone0" then { st with zoneA := filterAscii txt }
  else if tag = "zone1" then { st with zoneB := filterAscii txt }
  else if tag = "zone2" then { st with zoneC := filterAscii txt }
  else if tag = "gsm" then { st with gsm := filterAscii txt }
  else if tag = "recgsm" then { st with recgsm := filterAscii txt }
  else if tag = "opegsm" then { st with opegsm := filterAscii txt }
  else if tag = "camera" then { st with camera := filterAscii txt }
  else st

/-- `get_status`'s parsing loop over the XML root's children, each child
given as (tag, text); `text` is `none` for an element without text. -/
def statusFromChildren (children : List (String × Option String)) : Status :=
  children.foldl (fun st c => applyStatusChild st c.1 c.2) {}

/-! ## Byte-level text codecs (used by `get_elements` and `_fix_mojibake`) -/

/-- Is `b` a UTF-8 continuation byte. -/
def contByte (b : Nat) : Bool := decide (128 ≤ b ∧ b ≤ 191)

/-- Strict UTF-8 decoding (Python `bytes.decode("utf-8")`): rejects
truncated sequences, overlong encodings, surrogates and values beyond
U+10FFFF.  The fuel is an upper bound on the byte count. -/
def utf8DecodeFuel : Nat → List Nat → Option (List Char)
  | _, [] => some []
  | 0, _ :: _ => none
  | fuel+1, b :: bs =>
    if b ≤ 127 then
      (utf8DecodeFuel fuel bs).map (fun cs => Char.ofNat b :: cs)
    else if 194 ≤ b ∧ b ≤ 223 then
      match bs with
      | c :: bs2 =>
          if contByte c then
            (utf8DecodeFuel fuel bs2).map
              (fun cs => Char.ofNat ((b - 192) * 64 + (c - 128)) :: cs)
          else none
      | [] => none
    else if 224 ≤ b ∧ b ≤ 239 then
      match bs with
      | c :: d :: bs2 =>
          let lo : Nat := if b = 224 then 160 else 128
          let hi : Nat := if b = 237 then 159 else 191
          if (decide (lo ≤ c ∧ c ≤ hi) && contByte d) then
            (utf8DecodeFuel fuel bs2).map
              (fun cs => Char.ofNat ((b - 224) * 4096 + (c - 128) * 64 + (d - 128)) :: cs)
          else none
      | _ => none
    else if 240 ≤ b ∧ b ≤ 244 then
      match bs with
      | c :: d :: e :: bs2 =>
          let lo : Nat := if b = 240 then 144 else 128
          let hi : Nat := if b = 244 then 143 else 191
          if (decide (lo ≤ c ∧ c ≤ hi) && contByte d && contByte e) then
            (utf8DecodeFuel fuel bs2).map
              (fun cs => Char.ofNat ((b - 240) * 262144 + (c - 128) * 4096 +
                (d - 128) * 64 + (e - 128)) :: cs)
          else none
      | _ => none
    else none

def utf8Decode (bs : List Nat) : Option (List Char) :=
  utf8DecodeFuel bs.length bs

/-- Lenient UTF-8 decoding (`errors="ignore"`): invalid bytes are skipped.
Only reachable as the dead fallback of the decode chain, since latin-1
decoding is total. -/
def utf8DecodeIgnore : Nat → List Nat → List Char
  | _, [] => []
  | 0, _ :: _ => []
  | fuel+1, b :: bs =>
    if b ≤ 127 then
      Char.ofNat b :: utf8DecodeIgnore fuel bs
    else if 194 ≤ b ∧ b ≤ 223 then
      match bs with
      | c :: bs2 =>
          if contByte c then
            Char.ofNat ((b - 192) * 64 + (c - 128)) :: utf8DecodeIgnore fuel bs2
          else utf8DecodeIgnore fuel bs
      | [] => []
    else if 224 ≤ b ∧ b ≤ 239 then
      match bs with
      | c :: d :: bs2 =>
          let lo : Nat := if b = 224 then 160 else 128
          let hi : Nat := if b = 237 then 159 else 191
          if (decide (lo ≤ c ∧ c ≤ hi) && contByte d) then
            Char.ofNat ((b - 224) * 4096 + (c - 128) * 64 + (d - 128)) ::
              utf8DecodeIgnore fuel bs2
          else utf8DecodeIgnore fuel bs
      | _ => utf8DecodeIgnore fuel bs
    else if 240 ≤ b ∧ b ≤ 244 then
      match bs with
      | c :: d :: e :: bs2 =>
          let lo : Nat := if b = 240 then 144 else 128
          let hi : Nat := if b = 244 then 143 else 191
          if (decide (lo ≤ c ∧ c ≤ hi) && contByte d && contByte e) then
            Char.ofNat ((b - 240) * 262144 + (c - 128) * 4096 +
              (d - 128) * 64 + (e - 128)) :: utf8DecodeIgnore fuel bs2
          else utf8DecodeIgnore fuel bs
      | _ => utf8DecodeIgnore fuel bs
    else utf8DecodeIgnore fuel bs

/-- Python `str.encode("latin-1")`: fails on any code point above 255. -/
def latin1Encode : List Char → Option (List Nat)
  | [] => some []
  | c :: cs =>
      if c.toNat ≤ 255 then (latin1Encode cs).map (fun bs => c.toNat :: bs)
      else none

/-- `bytes.decode("latin-1")`: every byte maps to the same code point;
total, hence the later fallbacks of the decode chain are dead code. -/
def latin1Decode (bs : List Nat) : List Char := bs.map Char.ofNat

/-- The windows-1252 mapping for bytes 0x80-0x9F; the five unassigned
bytes (0x81, 0x8D, 0x8F, 0x90, 0x9D) make the decode fail. -/
def win1252High (b : Nat) : Option Nat :=
  if b = 128 then some 8364
  else if b = 130 then some 8218
  else if b = 131 then some 402
  else if b = 132 then some 8222
  else if b = 133 then some 8230
  else if b = 134 then some 8224
  else if b = 135 then some 8225
  else if b = 136 then some 710
  else if b = 137 then some 8240
  else if b = 138 then some 352
  else if b = 139 then some 8249
  else if b = 140 then some 338
  else if b = 142 then some 381
  else if b = 145 then some 8216
  else if b = 146 then some 8217
  else if b = 147 then some 8220
  else if b = 148 then some 8221
  else if b = 149 then some 8226
  else if b = 150 then some 8211
  else if b = 151 then some 8212
  else if b = 152 then some 732
  else if b = 153 then some 8482
  else if b = 154 then some 353
  else if b = 155 then some 8250
  else if b = 156 then some 339
  else if b = 158 then some 382
  else if b = 159 then some 376
  else none

/-- `bytes.decode("windows-1252")`. -/
def win1252Decode : List Nat → Option (List Char)
  | [] => some []
  | b :: bs =>
      if b ≤ 127 ∨ 160 ≤ b then
        (win1252Decode bs).map (fun cs => Char.ofNat b :: cs)
      else
        match win1252High b with
        | some cp => (win1252Decode bs).map (fun cs => Char.ofNat cp :: cs)
        | none => none

/-- `raw.decode(enc)` for the codec names the decode chain can reach; an
unknown codec name raises and is treated as a failed attempt by the
caller's `except`/`continue`. -/
def decodeWith (enc : String) (bs : List Nat) : Option String :=
  if enc = "utf-8" then (utf8Decode bs).map String.mk
  else if enc = "windows-1252" then (win1252Decode bs).map String.mk
  else if enc = "latin-1" then some (String.mk (latin1Decode bs))
  else none

/-- `_fix_mojibake`: re-encode as latin-1 and re-decode as UTF-8; on any
failure return the text unchanged. -/
def fixMojibake (s : String) : String :=
  match latin1Encode s.data with
  | none => s
  | some bs =>
      match utf8Decode bs with
      | none => s
      | some cs => String.mk cs

/-- The `get_elements` decode chain over the raw body: utf-8, then
windows-1252, then latin-1, then the variant encoding (or latin-1 when the
variant declares a falsy one), with a lenient-UTF-8 fallback; everything
after latin-1 is unreachable. -/
def elementsDecode (bs : List Nat) (apiEnc : String) : String :=
  match decodeWith "utf-8" bs with
  | some h => h
  | none =>
      match decodeWith "windows-1252" bs with
      | some h => h
      | none =>
          match decodeWith "latin-1" bs with
          | some h => h
          | none =>
              match decodeWith (if apiEnc = "" then "latin-1" else apiEnc) bs with
              | some h => h
              | none => String.mk (utf8DecodeIgnore bs.length bs)

/-! ## JS-array extraction (`get_elements`'s `extract_array`) -/

/-- Python whitespace (`str.isspace`, also used by `re`'s space class and
by `str.strip()` with no argument). -/
def pySpace (c : Char) : Bool :=
  decide ((9 ≤ c.toNat ∧ c.toNat ≤ 13) ∨ c.toNat = 32 ∨
    (28 ≤ c.toNat ∧ c.toNat ≤ 31) ∨ c.toNat = 133 ∨ c.toNat = 160 ∨
    c.toNat = 5760 ∨ (8192 ≤ c.toNat ∧ c.toNat ≤ 8202) ∨ c.toNat = 8232 ∨
    c.toNat = 8233 ∨ c.toNat = 8239 ∨ c.toNat = 8287 ∨ c.toNat = 12288)

/-- ASCII-case-insensitive character comparison (the `re.I` flag; the
pattern letters involved are all ASCII). -/
def ciEqChar (a b : Char) : Bool := a.toLower = b.toLower

/-- Consume the pattern characters case-insensitively, returning the rest
of the input on success. -/
def ciDropPattern : List Char → List Char → Option (List Char)
  | [], l => some l
  | _ :: _, [] => none
  | p :: ps, c :: cs => if ciEqChar p c then ciDropPattern ps cs else none

/-- Consume one-or-more whitespace characters (the pattern item after
`var` in the extraction regex); maximal munch is faithful here because no
array name starts with a whitespace character. -/
def munchSpaces1 : List Char → Option (List Char)
  | [] => none
  | c :: cs => if pySpace c then some (cs.dropWhile pySpace) else none

/-- The lazy group `(.*?)` followed by the literal `];` (with `re.S` the
dot spans newlines): the group is everything before the first `];`
occurrence; no occurrence means the match attempt fails. -/
def takeUntilCloseSemi : List Char → Option (List Char)
  | ']' :: ';' :: _ => some []
  | c :: rest => (takeUntilCloseSemi rest).map (fun g => c :: g)
  | [] => none

/-- Attempt the regex `var\s+NAME\s*=\s*\[(.*?)\];` at the head of the
input, returning the captured group. -/
def matchVarAt (name : List Char) (l : List Char) : Option (List Char) := do
  let l1 ← ciDropPattern [Char.ofNat 118, Char.ofNat 97, Char.ofNat 114] l
  let l2 ← munchSpaces1 l1
  let l3 ← ciDropPattern name l2
  let l4 := l3.dropWhile pySpace
  let l5 ← match l4 with
    | '=' :: rest => some rest
    | _ => none
  let l6 := l5.dropWhile pySpace
  let l7 ← match l6 with
    | '[' :: rest => some rest
    | _ => none
  takeUntilCloseSemi l7

/-- `re.search`: leftmost successful match attempt wins. -/
def searchVarArray (name : List Char) : List Char → Option (List Char)
  | [] => none
  | c :: rest =>
      match matchVarAt name (c :: rest) with
      | some g => some g
      | none => searchVarArray name rest

/-- Python `raw_arr.split(",")`: keeps empty fields, never drops one. -/
def splitOnComma : List Char → List (List Char)
  | [] => [[]]
  | ',' :: rest => [] :: splitOnComma rest
  | c :: rest =>
      match splitOnComma rest with
      | h :: t => (c :: h) :: t
      | [] => [[c]]

/-- Python `str.strip`-style stripping of characters satisfying `p` from
both ends. -/
def pyStrip (p : Char → Bool) (l : List Char) : List Char :=
  ((l.dropWhile p).reverse.dropWhile p).reverse

/-- `extract_array(name)`: regex search, comma split, whitespace strip,
then a second whitespace strip plus quote stripping, then mojibake repair
per element; a missing array yields the empty list. -/
def extractArray (name : String) (html : String) : List String :=
  match searchVarArray name.data html.data with
  | none => []
  | some grp =>
      let parts := (splitOnComma grp).map (fun p => pyStrip pySpace p)
      parts.map (fun p =>
        let v1 := pyStrip pySpace p
        let v2 := pyStrip (fun c => c = '"') v1
        let v3 := pyStrip (fun c => c = Char.ofNat 39) v2
        fixMojibake (String.mk v3))

/-- One normalized element (the dict built at protexial.py lines 526-537). -/
structure SomfyElement where
  label : String
  name : String
  code : String
  battery : String
  comm : String
  door : String
  zone : String
  tamper : String
  house : String
  pause : String
deriving DecidableEq, Repr

/-- The element-assembly loop of `get_elements` (lines 521-538): the count
is `min(len(item_label), len(elt_name), len(elt_code))`; short optional
arrays pad with `""` — except `comm`, whose absent entries become
`"itemhidden"`; `label`, `name` and `zone` get a second mojibake repair. -/
def buildElements (item_label elt_name elt_code elt_pile elt_onde elt_porte
    elt_zone elt_as elt_maison item_pause : List String) : List SomfyElement :=
  let n := min (min item_label.length elt_name.length) elt_code.length
  (List.range n).map (fun i =>
    ⟨fixMojibake (item_label.getD i ""),
     fixMojibake (elt_name.getD i ""),
     elt_code.getD i "",
     if i < elt_pile.length then elt_pile.getD i "" else "",
     if i < elt_onde.length then elt_onde.getD i "" else "itemhidden",
     if i < elt_porte.length then elt_porte.getD i "" else "",
     if i < elt_zone.length then fixMojibake (elt_zone.getD i "") else "",
     if i < elt_as.length then elt_as.getD i "" else "",
     if i < elt_maison.length then elt_maison.getD i "" else "",
     if i < item_pause.length then item_pause.getD i "" else ""⟩)

/-- The pure tail of `get_elements`: extract the ten JS arrays from the
decoded page and assemble the element list. -/
def parseElementsHtml (html : String) : List SomfyElement :=
  buildElements
    (extractArray "item_label" html)
    (extractArray "elt_name" html)
    (extractArray "elt_code" html)
    (extractArray "elt_pile" html)
    (extractArray "elt_onde" html)
    (extractArray "elt_porte" html)
    (extractArray "elt_zone" html)
    (extractArray "elt_as" html)
    (extractArray "elt_maison" html)
    (extractArray "item_pause" html)

/-- The candidate loop of `get_elements` (lines 467-493): each candidate is
fetched through the call wrapper with all defaults (`retry=True`,
`login=True`, `authenticated=True`); any exception moves to the next
candidate; the first successful fetch is decoded and ends the loop —
before any parsing happens. -/
def elementsFetch (fuel : Nat) (api : Api) (codes : String → Option String) :
    St → List Response → List String → Option String × St × List Response × Nat × Nat
  | st, script, [] => (none, st, script, 0, 0)
  | st, script, cand :: more =>
      let R := doCall fuel api codes st script .get (.raw cand) true true true
      match R.res with
      | .ok resp =>
          (some (elementsDecode resp.bodyBytes api.encoding), R.st, R.script,
            R.logins, R.logouts)
      | .error _ =>
          match elementsFetch fuel api codes R.st R.script more with
          | (h, st2, sc2, lg, lo) => (h, st2, sc2, R.logins + lg, R.logouts + lo)

/-- `SomfyProtexial.get_elements`: candidates in source order
(`LIST_ELEMENTS`, `LIST_ELEMENTS_ALT`, `LIST_ELEMENTS_PRINT`); when no
candidate fetch succeeds the result is the empty list, not an error. -/
def getElements (fuel : Nat) (api : Api) (codes : String → Option String)
    (st : St) (script : List Response) : Outcome (List SomfyElement) :=
  match elementsFetch fuel api codes st script [LIST_ELEMENTS, LIST_ELEMENTS_ALT, LIST_ELEMENTS_PRINT] with
  | (none, st2, sc2, lg, lo) => ⟨.ok [], st2, sc2, lg, lo⟩
  | (some html, st2, sc2, lg, lo) => ⟨.ok (parseElementsHtml html), st2, sc2, lg, lo⟩

/-! ## Challenge card (`get_challenge_card`) -/

/-- The column letters `chars = ["A", "B", "C", "D", "E", "F"]`. -/
def cardCols : List String := ["A", "B", "C", "D", "E", "F"]

/-- The cell loop of `get_challenge_card` (lines 409-414): column is
`global_index % 6`, the row counter increments whenever the column wraps
to 0 (so rows start at 1); keys are column letter concatenated with the
row number.  Keys never repeat, so the dict is an association list in
iteration order. -/
def parseCardCells : List String → Nat → Nat → List (String × String)
  | [], _, _ => []
  | t :: rest, gi, row =>
      let col := gi % 6
      let row2 := if col = 0 then row + 1 else row
      (cardCols.getD col "" ++ toString row2, t) :: parseCardCells rest (gi + 1) row2

/-- `SomfyProtexial.get_challenge_card(username, password, code)`: login
with the explicit code, fetch the challenge-card page (`login=False`,
`retry` left at its default True), scrape the grid, then logout.  There is
no try/finally: an exception from the fetch propagates before `logout()`
is reached. -/
def getChallengeCard (fuel : Nat) (api : Api) (codes : String → Option String)
    (st : St) (script : List Response) (code : String) :
    Outcome (List (String × String)) :=
  let L := loginFn fuel api codes st script (some code)
  match L.res with
  | .error e => ⟨.error e, L.st, L.script, L.logins, L.logouts⟩
  | .ok _ =>
      let R := doCall fuel api codes L.st L.script .get (.page .challengeCard) true true false
      match R.res with
      | .error e => ⟨.error e, R.st, R.script, L.logins + R.logins, L.logouts + R.logouts⟩
      | .ok resp =>
          let table := parseCardCells resp.cells 0 0
          let O := logoutFn fuel api codes R.st R.script
          match O.res with
          | .error e =>
              ⟨.error e, O.st, O.script, L.logins + R.logins + O.logins,
                L.logouts + R.logouts + O.logouts⟩
          | .ok _ =>
              ⟨.ok table, O.st, O.script, L.logins + R.logins + O.logins,
                L.logouts + R.logouts + O.logouts⟩

/-! ## Variant detection (`guess_and_set_api_type` / `do_guess_get`) -/

/-- `const.ApiType` members, in the probing order of
`guess_and_set_api_type`. -/
inductive ApiTypeT where
  | protexialIo | protexial | protexiom
deriving DecidableEq, Repr

/-- `re.match(CHALLENGE_REGEX, challenge)` with
`CHALLENGE_REGEX = "[A-F]{1}[1-5]{1}"`: `re.match` anchors only at the
start, so this is a prefix test — any text beginning with a letter A-F and
a digit 1-5 passes. -/
def reMatchChallenge (s : String) : Bool :=
  match s.data with
  | a :: b :: _ =>
      decide (65 ≤ a.toNat ∧ a.toNat ≤ 70 ∧ 49 ≤ b.toNat ∧ b.toNat ≤ 53)
  | _ => false

/-- Modelled from the spec: the claim's challenge grammar read as an exact
(whole-string) match — "one letter A-F followed by one digit 1-5" — for
comparison with the source's prefix test `reMatchChallenge`. -/
def specChallengeExact (s : String) : Bool :=
  match s.data with
  | [a, b] =>
      decide (65 ≤ a.toNat ∧ a.toNat ≤ 70 ∧ 49 ≤ b.toNat ∧ b.toNat ≤ 53)
  | _ => false

/-- `SomfyProtexial.do_guess_get(page)`: one raw GET with redirects
disabled; 200 returns the body (here, the response), 302 raises the
temporarily-unavailable `SomfyException`, any other status falls through
and returns `None`; an exhausted script models `ClientError`. -/
def doGuessGet (path : String) : List Response → Except Err (Option Response) × List Response
  | [] => (.error (.somfy ("Error fetching from '" ++ path ++ "'")), [])
  | r :: rest =>
      if r.status = 200 then (.ok (some r), rest)
      else if r.status = 302 then
        (.error (.somfy "Unavailable, please retry later"), rest)
      else (.ok none, rest)

/-- The login-page half of one variant probe: fetch the login page, read
the challenge element's text (an empty selection reads as `""`), and test
it against the challenge regex. -/
def guessLoginCheck (api : Api) (script : List Response) :
    Except Err Bool × List Response :=
  match doGuessGet api.loginPath script with
  | (.error e, rest) => (.error e, rest)
  | (.ok none, rest) => (.ok false, rest)
  | (.ok (some r), rest) => (.ok (reMatchChallenge (r.challengeText.getD "")), rest)

/-- One variant probe: when the variant declares a version page it must
fetch with status 200, otherwise the variant is skipped without touching
its login page; then the login-page challenge check decides. -/
def guessProbe (api : Api) (script : List Response) :
    Except Err Bool × List Response :=
  match api.versionPath with
  | some vp =>
      match doGuessGet vp script with
      | (.error e, rest) => (.error e, rest)
      | (.ok none, rest) => (.ok false, rest)
      | (.ok (some _), rest) => guessLoginCheck api rest
  | none => guessLoginCheck api script

/-- The probing loop of `guess_and_set_api_type`: first satisfying variant
wins and ends the loop; a falsy probe moves on; exhausting the list raises
the detection-failure `SomfyException`. -/
def guessList (apis : ApiTypeT → Api) :
    List ApiTypeT → List Response → Except Err ApiTypeT × List Response
  | [], script => (.error (.somfy "Couldn't detect the centrale type"), script)
  | t :: ts, script =>
      match guessProbe (apis t) script with
      | (.error e, rest) => (.error e, rest)
      | (.ok true, rest) => (.ok t, rest)
      | (.ok false, rest) => guessList apis ts rest

/-- `SomfyProtexial.guess_and_set_api_type`: probe PROTEXIAL_IO, then
PROTEXIAL, then PROTEXIOM. -/
def guessAndSetApiType (apis : ApiTypeT → Api) (script : List Response) :
    Except Err ApiTypeT × List Response :=
  guessList apis [.protexialIo, .protexial, .protexiom] script

/-! ## Concrete fixtures for witnesses and counterexamples -/

/-- A concrete variant adapter with pairwise-distinct page paths, standing
in for one of the real firmware variants. -/
def sampleApi : Api :=
  ⟨"/fr/login.htm", "/fr/logout.htm", "/fr/u_pilotage.htm", "/status.xml",
   "/fr/error.htm", "/fr/u_challenge.htm", "/default.htm", some "/cfg/vers", "utf-8"⟩

/-- A challenge-code table holding only the coordinate A1. -/
def codes1 : String → Option String := fun s => if s = "A1" then some "1234" else none

/-- An empty challenge-code table (every lookup is a miss). -/
def codesNone : String → Option String := fun _ => none

/-- The default/home page served in place of the requested page. -/
def respDefault : Response := ⟨200, "/default.htm", none, none, none, [], []⟩

/-- The login page carrying challenge text A1. -/
def respLoginPage : Response := ⟨200, "/fr/login.htm", none, none, some "A1", [], []⟩

/-- A successful login POST response carrying a session cookie. -/
def respLoginPost : Response := ⟨200, "/fr/login.htm", none, some "SID=42", none, [], []⟩

/-- An ordinary successful page response. -/
def respPlain : Response := ⟨200, "/fr/u_pilotage.htm", none, none, none, [], []⟩

/-- The error page carrying the SESSION_ALREADY_OPEN code. -/
def respConflict : Response := ⟨200, "/fr/error.htm", some "(0x0902)", none, none, [], []⟩

/-- The response to the reset-session POST (an ordinary page). -/
def respResetOk : Response := ⟨200, "/fr/reset_done.htm", none, none, none, [], []⟩

/-- The error page carrying the NOT_AUTHORIZED code. -/
def respNotAuth : Response := ⟨200, "/fr/error.htm", some "(0x0903)", none, none, [], []⟩

/-- A plain HTTP failure. -/
def resp500 : Response := ⟨500, "/fr/u_challenge.htm", none, none, none, [], []⟩

/-- The challenge-card page with seven scraped cells (enough to watch the
row counter wrap). -/
def respCard : Response :=
  ⟨200, "/fr/u_challenge.htm", none, none, none,
   ["11", "22", "33", "44", "55", "66", "77"], []⟩

/-- A successful logout response. -/
def respLogoutOk : Response := ⟨200, "/fr/logout.htm", none, none, none, [], []⟩

/-- The elements page of the spec's parsing scenario. -/
def html6 : String :=
  "var item_label = [\"DO\",\"DM\"]; var elt_name = [\"Porte\",\"Detecteur\"]; var elt_code=[\"1\",\"2\"];"

/-- ASCII bytes of a string (all fixture bodies are pure ASCII). -/
def asciiBytes (s : String) : List Nat := s.data.map Char.toNat

/-- First elements-page candidate: fetches and decodes fine but contains
no JS arrays, so it parses to zero elements. -/
def respElemsEmpty : Response :=
  ⟨200, "/fr/u_plistelmt.htm", none, none, none, [], asciiBytes "nothing here"⟩

/-- Second elements-page candidate: would parse to two elements. -/
def respElemsFull : Response :=
  ⟨200, "/fr/u_listelmt.htm", none, none, none, [], asciiBytes html6⟩

/-- Concrete adapter records for the three probed variants. -/
def apiIo : Api :=
  ⟨"/io/login.htm", "/io/logout.htm", "/io/pil.htm", "/io/status.xml",
   "/io/error.htm", "/io/card.htm", "/io/default.htm", some "/io/vers", "utf-8"⟩

def apiPtx : Api :=
  ⟨"/b/login.htm", "/b/logout.htm", "/b/pil.htm", "/b/status.xml",
   "/b/error.htm", "/b/card.htm", "/b/default.htm", none, "iso-8859-15"⟩

def apiPom : Api :=
  ⟨"/c/login.htm", "/c/logout.htm", "/c/pil.htm", "/c/status.xml",
   "/c/error.htm", "/c/card.htm", "/c/default.htm", none, "iso-8859-15"⟩

def sampleApis : ApiTypeT → Api
  | .protexialIo => apiIo
  | .protexial => apiPtx
  | .protexiom => apiPom

/-- The first variant's version page, fetched successfully. -/
def respVers : Response := ⟨200, "/io/vers", none, none, none, [], []⟩

/-- The first variant's login page whose challenge text merely begins with
a grammar-conforming pair. -/
def respLoginIo : Response := ⟨200, "/io/login.htm", none, none, some "A1XYZ", [], []⟩

/-- A redirect answer during probing. -/
def resp302 : Response := ⟨302, "/io/vers", none, none, none, [], []⟩

/-- A login page whose challenge text matches nowhere. -/
def respLoginBad : Response := ⟨200, "/io/login.htm", none, none, some "zz", [], []⟩

/-- A variant table where no variant declares a version page. -/
def apisNoVers : ApiTypeT → Api := fun _ => apiPtx

/-! ## Helper lemmas about the call wrapper -/

set_option maxHeartbeats 1000000 in
/-- Every `__login` invocation is preceded by consuming at least one
response: across the whole mutual recursion, the number of logins plus the
number of unconsumed responses never exceeds the initial response count
(for `__login` itself, plus its own entry).  This is the precise sense in
which the recursion cannot loop without the panel answering. -/
theorem consumeBound : ∀ fuel : Nat,
    (∀ api codes st script m p auth retry lg,
      (doCall fuel api codes st script m p auth retry lg).logins +
        (doCall fuel api codes st script m p auth retry lg).script.length ≤ script.length) ∧
    (∀ api codes st script codeArg,
      (loginFn fuel api codes st script codeArg).logins +
        (loginFn fuel api codes st script codeArg).script.length ≤ 1 + script.length) ∧
    (∀ api codes st script,
      (getChallengeFn fuel api codes st script).logins +
        (getChallengeFn fuel api codes st script).script.length ≤ script.length) := by
  intro fuel
  induction fuel with
  | zero =>
    refine ⟨?_, ?_, ?_⟩ <;> intros <;> simp [doCall, loginFn, getChallengeFn]
  | succ n ih =>
    obtain ⟨ihD, ihL, ihC⟩ := ih
    refine ⟨?_, ?_, ?_⟩
    · intro api codes st script m p auth retry lg
      rcases script with _ | ⟨r, rest⟩
      · simp [doCall]
      · have hL0 := ihL api codes st rest none
        have hR0 := ihD api codes (loginFn n api codes st rest none).st
          (loginFn n api codes st rest none).script m p auth false false
        have hX := ihD api codes st rest .post (.page .error) false false false
        have hL1 := ihL api codes ⟨none⟩
          (doCall n api codes st rest .post (.page .error) false false false).script none
        have hR1 := ihD api codes
          (loginFn n api codes ⟨none⟩ (doCall n api codes st rest .post (.page .error) false false false).script none).st
          (loginFn n api codes ⟨none⟩ (doCall n api codes st rest .post (.page .error) false false false).script none).script
          m p auth false lg
        have hR2 := ihD api codes ⟨none⟩
          (doCall n api codes st rest .post (.page .error) false false false).script m p auth false lg
        simp only [doCall]
        repeat' split
        all_goals dsimp only
        all_goals simp only [List.length_cons]
        all_goals omega
    · intro api codes st script codeArg
      have hC := ihC api codes ⟨none⟩ script
      have hP1 := ihD api codes (getChallengeFn n api codes ⟨none⟩ script).st
        (getChallengeFn n api codes ⟨none⟩ script).script .post (.page .login) true false false
      have hP2 := ihD api codes ⟨none⟩ script .post (.page .login) true false false
      simp only [loginFn]
      repeat' split
      all_goals dsimp only
      all_goals omega
    · intro api codes st script
      have hR := ihD api codes st script .get (.page .login) true true false
      simp only [getChallengeFn]
      repeat' split
      all_goals dsimp only
      all_goals omega

set_option maxHeartbeats 1000000 in
/-- The `logouts` counter only increments inside `logoutFn`, which the
call wrapper never reaches: no call through `__do_call`, `__login` or
`get_challenge` ever performs a logout. -/
theorem noLogouts : ∀ fuel : Nat,
    (∀ api codes st script m p auth retry lg,
      (doCall fuel api codes st script m p auth retry lg).logouts = 0) ∧
    (∀ api codes st script codeArg,
      (loginFn fuel api codes st script codeArg).logouts = 0) ∧
    (∀ api codes st script,
      (getChallengeFn fuel api codes st script).logouts = 0) := by
  intro fuel
  induction fuel with
  | zero =>
    refine ⟨?_, ?_, ?_⟩ <;> intros <;> simp [doCall, loginFn, getChallengeFn]
  | succ n ih =>
    obtain ⟨ihD, ihL, ihC⟩ := ih
    refine ⟨?_, ?_, ?_⟩
    · intro api codes st script m p auth retry lg
      rcases script with _ | ⟨r, rest⟩
      · simp [doCall]
      · have hL0 := ihL api codes st rest none
        have hR0 := ihD api codes (loginFn n api codes st rest none).st
          (loginFn n api codes st rest none).script m p auth false false
        have hX := ihD api codes st rest .post (.page .error) false false false
        have hL1 := ihL api codes ⟨none⟩
          (doCall n api codes st rest .post (.page .error) false false false).script none
        have hR1 := ihD api codes
          (loginFn n api codes ⟨none⟩ (doCall n api codes st rest .post (.page .error) false false false).script none).st
          (loginFn n api codes ⟨none⟩ (doCall n api codes st rest .post (.page .error) false false false).script none).script
          m p auth false lg
        have hR2 := ihD api codes ⟨none⟩
          (doCall n api codes st rest .post (.page .error) false false false).script m p auth false lg
        simp only [doCall]
        repeat' split
        all_goals dsimp only
        all_goals omega
    · intro api codes st script codeArg
      have hC := ihC api codes ⟨none⟩ script
      have hP1 := ihD api codes (getChallengeFn n api codes ⟨none⟩ script).st
        (getChallengeFn n api codes ⟨none⟩ script).script .post (.page .login) true false false
      have hP2 := ihD api codes ⟨none⟩ script .post (.page .login) true false false
      simp only [loginFn]
      repeat' split
      all_goals dsimp only
      all_goals omega
    · intro api codes st script
      have hR := ihD api codes st script .get (.page .login) true true false
      simp only [getChallengeFn]
      repeat' split
      all_goals dsimp only
      all_goals omega

/-- `__login` always counts itself: at least one login per invocation. -/
theorem loginFnLoginsPos (fuel : Nat) (api : Api) (codes : String → Option String)
    (st : St) (script : List Response) (codeArg : Option String) :
    1 ≤ (loginFn (fuel+1) api codes st script codeArg).logins := by
  simp only [loginFn]
  repeat' split
  all_goals dsimp only
  all_goals omega

/-! ## Claim theorems -/

/-- C1, counterexample: after a default-page response, one login and one
retried call that again lands on the default page, `__do_call` returns the
default-page response to the caller with `Except.ok` — it does not surface
a NotAuthenticated failure as the claim states. -/
theorem c1_counterexample :
    (doCall 12 sampleApi codes1 ⟨none⟩
        [respDefault, respLoginPage, respLoginPost, respDefault]
        .get (.page .pilotage) true true true).res = Except.ok respDefault ∧
    respDefault.path = sampleApi.defaultPath ∧
    (doCall 12 sampleApi codes1 ⟨none⟩
        [respDefault, respLoginPage, respLoginPost, respDefault]
        .get (.page .pilotage) true true true).logins = 1 :=
  ⟨rfl, rfl, rfl⟩

/-- C1 (amended): when the response path equals the variant's default page
and retry is allowed, the machine performs a full login (at least one
login is counted) and retries the same call exactly once with retry
disabled; if the retried call's response path again equals the default
page, that response is returned to the caller without error. -/
theorem c1_amended_default_retry
    (fuel : Nat) (api : Api) (codes : String → Option String) (st : St)
    (r r2 : Response) (rest rest2 : List Response) (m : Method) (p : PageRef)
    (auth lg : Bool)
    (hs : r.status = 200) (hp : r.path = api.defaultPath)
    (hL : (loginFn (fuel+1) api codes st rest none).res = Except.ok ())
    (hsc : (loginFn (fuel+1) api codes st rest none).script = r2 :: rest2)
    (hs2 : r2.status = 200) (hp2 : r2.path = api.defaultPath)
    (hne : api.defaultPath ≠ api.errorPath) :
    doCall (fuel+2) api codes st (r :: rest) m p auth true lg =
      ⟨Except.ok r2, (loginFn (fuel+1) api codes st rest none).st, rest2,
        (loginFn (fuel+1) api codes st rest none).logins,
        (loginFn (fuel+1) api codes st rest none).logouts⟩ ∧
    1 ≤ (loginFn (fuel+1) api codes st rest none).logins := by
  refine ⟨?_, loginFnLoginsPos fuel api codes st rest none⟩
  have hr2e : ¬ (r2.path = api.errorPath) := by rw [hp2]; exact hne
  simp only [doCall, hs, hp, hL, hsc, hs2, hr2e]
  simp

/-- C1, witness: the amended theorem instantiated on a concrete script
default-page, login-page, login-post, default-page. -/
theorem c1_amended_witness :
    doCall 12 sampleApi codes1 ⟨none⟩
        (respDefault :: [respLoginPage, respLoginPost, respDefault])
        .get (.page .pilotage) true true true =
      ⟨Except.ok respDefault,
        (loginFn 11 sampleApi codes1 ⟨none⟩ [respLoginPage, respLoginPost, respDefault] none).st,
        [],
        (loginFn 11 sampleApi codes1 ⟨none⟩ [respLoginPage, respLoginPost, respDefault] none).logins,
        (loginFn 11 sampleApi codes1 ⟨none⟩ [respLoginPage, respLoginPost, respDefault] none).logouts⟩ ∧
    1 ≤ (loginFn 11 sampleApi codes1 ⟨none⟩ [respLoginPage, respLoginPost, respDefault] none).logins :=
  c1_amended_default_retry 10 sampleApi codes1 ⟨none⟩ respDefault respDefault
    [respLoginPage, respLoginPost, respDefault] [] .get (.page .pilotage) true true
    rfl rfl rfl rfl rfl rfl (by decide)

/-- C2, counterexample: a script of four consecutive default-page
responses drives the call wrapper through four logins — the claimed global
bound of at most two login attempts per logical call is false. -/
theorem c2_counterexample :
    (doCall 30 sampleApi codes1 ⟨none⟩ [respDefault, respDefault, respDefault, respDefault]
        .get (.page .pilotage) true true true).logins = 4 ∧
    ¬ (doCall 30 sampleApi codes1 ⟨none⟩ [respDefault, respDefault, respDefault, respDefault]
        .get (.page .pilotage) true true true).logins ≤ 2 :=
  ⟨rfl, by decide⟩

/-- C2 (amended): the retry flag makes each frame re-attempt at most once,
but nested challenge fetches re-enter with retry enabled, so login
attempts are bounded only by the responses consumed (logins plus
unconsumed responses never exceed the script length, so the recursion
terminates on every finite response sequence but is not bounded by two);
on the spec's scenario default-page, default-page, real-page the wrapper
performs exactly 2 logins and then fails. -/
theorem c2_amended :
    (∀ fuel api codes st script m p auth retry lg,
      (doCall fuel api codes st script m p auth retry lg).logins +
        (doCall fuel api codes st script m p auth retry lg).script.length ≤ script.length) ∧
    (doCall 30 sampleApi codes1 ⟨none⟩ [respDefault, respDefault, respLoginPage]
        .get (.page .pilotage) true true true).logins = 2 ∧
    (doCall 30 sampleApi codes1 ⟨none⟩ [respDefault, respDefault, respLoginPage]
        .get (.page .pilotage) true true true).res =
      Except.error (.somfy "Error fetching information from /fr/login.htm - connection error") :=
  ⟨fun fuel api codes st script m p auth retry lg =>
    (consumeBound fuel).1 api codes st script m p auth retry lg, rfl, rfl⟩

/-- C3: on an error page carrying SESSION_ALREADY_OPEN with retry
allowed, the machine POSTs the reset-session payload to the error page,
clears the cookie, re-logs-in when the login flag allows it (exactly once)
and retries the original call once with retry disabled, returning the
retried response with no surfaced error; with the login flag off it
retries without any login and with the cookie cleared; with retry
exhausted it fails with "Too many login retries" and consumes no further
responses. -/
theorem c3_session_conflict
    (fuel : Nat) (api : Api) (codes : String → Option String) (st : St)
    (r x s2 s3 : Response) (restL rest3 rest4 restE : List Response)
    (m : Method) (p : PageRef) (auth lg : Bool)
    (hrs : r.status = 200) (hrp : r.path = api.errorPath)
    (hrd : r.path ≠ api.defaultPath)
    (hcode : r.errorCode = some somfySessionAlreadyOpen)
    (hxs : x.status = 200) (hxe : x.path ≠ api.errorPath)
    (hL : (loginFn (fuel+1) api codes ⟨none⟩ restL none).res = Except.ok ())
    (hLs : (loginFn (fuel+1) api codes ⟨none⟩ restL none).script = s2 :: rest3)
    (hs2s : s2.status = 200) (hs2e : s2.path ≠ api.errorPath)
    (hs3s : s3.status = 200) (hs3e : s3.path ≠ api.errorPath) :
    doCall (fuel+2) api codes st (r :: x :: restL) m p auth true true =
      ⟨Except.ok s2, (loginFn (fuel+1) api codes ⟨none⟩ restL none).st, rest3,
        (loginFn (fuel+1) api codes ⟨none⟩ restL none).logins,
        (loginFn (fuel+1) api codes ⟨none⟩ restL none).logouts⟩ ∧
    1 ≤ (loginFn (fuel+1) api codes ⟨none⟩ restL none).logins ∧
    doCall (fuel+2) api codes st (r :: restE) m p auth false lg =
      ⟨Except.error (.somfy "Too many login retries"), st, restE, 0, 0⟩ ∧
    doCall (fuel+2) api codes st (r :: x :: s3 :: rest4) m p auth true false =
      ⟨Except.ok s3, ⟨none⟩, rest4, 0, 0⟩ := by
  have hA : (somfySessionAlreadyOpen = somfyNotAuthorized) = False := by decide
  have hs' : (r.status ≠ 200) = False := by simp [hrs]
  have hd : (r.path = api.defaultPath) = False := by simp [hrd]
  have he : (r.path = api.errorPath) = True := by simp [hrp]
  have hxs' : (x.status ≠ 200) = False := by simp [hxs]
  have hxe' : (x.path = api.errorPath) = False := by simp [hxe]
  have hs2s' : (s2.status ≠ 200) = False := by simp [hs2s]
  have hs2e' : (s2.path = api.errorPath) = False := by simp [hs2e]
  have hs3s' : (s3.status ≠ 200) = False := by simp [hs3s]
  have hs3e' : (s3.path = api.errorPath) = False := by simp [hs3e]
  refine ⟨?_, loginFnLoginsPos fuel api codes ⟨none⟩ restL none, ?_, ?_⟩
  · simp [doCall, hs', hd, he, hcode, hA, hxs', hxe', hL, hLs, hs2s', hs2e']
  · simp [doCall, hs', hd, he, hcode, hA]
  · simp [doCall, hs', hd, he, hcode, hA, hxs', hxe', hs3s', hs3e']

/-- C3, witness: the conflict theorem instantiated on concrete scripts
(conflict, reset, login-page, login-post, success) and (conflict, reset). -/
theorem c3_witness :
    doCall 12 sampleApi codes1 ⟨some "OLD"⟩
        (respConflict :: respResetOk :: [respLoginPage, respLoginPost, respPlain])
        .get (.page .pilotage) true true true =
      ⟨Except.ok respPlain,
        (loginFn 11 sampleApi codes1 ⟨none⟩ [respLoginPage, respLoginPost, respPlain] none).st, [],
        (loginFn 11 sampleApi codes1 ⟨none⟩ [respLoginPage, respLoginPost, respPlain] none).logins,
        (loginFn 11 sampleApi codes1 ⟨none⟩ [respLoginPage, respLoginPost, respPlain] none).logouts⟩ ∧
    1 ≤ (loginFn 11 sampleApi codes1 ⟨none⟩ [respLoginPage, respLoginPost, respPlain] none).logins ∧
    doCall 12 sampleApi codes1 ⟨some "OLD"⟩ (respConflict :: [respResetOk])
        .get (.page .pilotage) true false true =
      ⟨Except.error (.somfy "Too many login retries"), ⟨some "OLD"⟩, [respResetOk], 0, 0⟩ ∧
    doCall 12 sampleApi codes1 ⟨some "OLD"⟩
        (respConflict :: respResetOk :: respPlain :: []) .get (.page .pilotage) true true false =
      ⟨Except.ok respPlain, ⟨none⟩, [], 0, 0⟩ :=
  c3_session_conflict 10 sampleApi codes1 ⟨some "OLD"⟩ respConflict respResetOk respPlain respPlain
    [respLoginPage, respLoginPost, respPlain] [] [] [respResetOk]
    .get (.page .pilotage) true true
    rfl rfl (by decide) rfl rfl (by decide) rfl rfl rfl (by decide) rfl (by decide)

/-- C10: when the error page reports NOT_AUTHORIZED while a (truthy)
session cookie is stored, no login and no retry happen: the call fails
with the catch-all unknown-error message carrying the raw code string
"(0x0903)", consuming no further responses. -/
theorem c10_notauthorized_with_cookie
    (fuel : Nat) (api : Api) (codes : String → Option String) (st : St)
    (r : Response) (rest : List Response) (m : Method) (p : PageRef) (auth lg : Bool)
    (hck : cookieTruthy st.cookie = true)
    (hrs : r.status = 200) (hrp : r.path = api.errorPath)
    (hrd : r.path ≠ api.defaultPath)
    (hcode : r.errorCode = some somfyNotAuthorized) :
    doCall (fuel+1) api codes st (r :: rest) m p auth true lg =
      ⟨Except.error (.somfy "Command failed: Unknown errorCode: (0x0903)"), st, rest, 0, 0⟩ := by
  have hs' : (r.status ≠ 200) = False := by simp [hrs]
  have hd : (r.path = api.defaultPath) = False := by simp [hrd]
  have he : (r.path = api.errorPath) = True := by simp [hrp]
  have hck' : (cookieTruthy st.cookie = false) = False := by simp [hck]
  have hB : (somfyNotAuthorized = somfySessionAlreadyOpen) = False := by decide
  have hC : (somfyNotAuthorized = somfyWrongCredentials) = False := by decide
  have hD : (somfyNotAuthorized = somfyMaxLoginAttempts) = False := by decide
  have hE : (somfyNotAuthorized = somfyWrongCode) = False := by decide
  have hF : (somfyNotAuthorized = somfyUnknownParameter) = False := by decide
  have hmsg : "Command failed: Unknown errorCode: " ++ somfyNotAuthorized =
      "Command failed: Unknown errorCode: (0x0903)" := by decide
  simp [doCall, hs', hd, he, hcode, hck', hB, hC, hD, hE, hF, hmsg]

/-- C10, witness: the theorem instantiated with a stored cookie and a
concrete NOT_AUTHORIZED error page. -/
theorem c10_witness :
    doCall 12 sampleApi codes1 ⟨some "OLD"⟩ (respNotAuth :: [respPlain])
        .get (.page .pilotage) true true true =
      ⟨Except.error (.somfy "Command failed: Unknown errorCode: (0x0903)"), ⟨some "OLD"⟩,
        [respPlain], 0, 0⟩ :=
  c10_notauthorized_with_cookie 11 sampleApi codes1 ⟨some "OLD"⟩ respNotAuth [respPlain]
    .get (.page .pilotage) true true rfl rfl rfl (by decide) rfl

/-- C4, counterexample: when the challenge-card page fetch fails (HTTP
500) after a successful login, `get_challenge_card` propagates the
exception without issuing any logout and with the session cookie still
stored — logout does not run on every exit path as the claim states. -/
theorem c4_counterexample :
    (getChallengeCard 12 sampleApi codes1 ⟨none⟩ [respLoginPost, resp500] "1111").res =
      Except.error (.somfy "Http error (500)") ∧
    (getChallengeCard 12 sampleApi codes1 ⟨none⟩ [respLoginPost, resp500] "1111").logouts = 0 ∧
    (getChallengeCard 12 sampleApi codes1 ⟨none⟩ [respLoginPost, resp500] "1111").st.cookie = some "SID=42" :=
  ⟨rfl, rfl, rfl⟩

/-- C4 (amended): the logout step of `get_challenge_card` runs only on
the success path (exactly one logout, cookie cleared); on an exceptional
exit from the card-page fetch the exception propagates with no logout
issued and the cookie left in place. -/
theorem c4_amended_scoped_logout
    (fuel : Nat) (api : Api) (codes : String → Option String) (st st2 : St)
    (rc ro rb : Response) (script scriptB : List Response)
    (rest3 restB : List Response) (code : String)
    (hL : (loginFn (fuel+1) api codes st script (some code)).res = Except.ok ())
    (hLs : (loginFn (fuel+1) api codes st script (some code)).script = rc :: ro :: rest3)
    (hrcs : rc.status = 200) (hrcd : rc.path ≠ api.defaultPath) (hrce : rc.path ≠ api.errorPath)
    (hros : ro.status = 200) (hroe : ro.path ≠ api.errorPath)
    (hLB : (loginFn (fuel+1) api codes st2 scriptB (some code)).res = Except.ok ())
    (hLBs : (loginFn (fuel+1) api codes st2 scriptB (some code)).script = rb :: restB)
    (hrbs : rb.status ≠ 200) :
    getChallengeCard (fuel+1) api codes st script code =
      ⟨Except.ok (parseCardCells rc.cells 0 0), ⟨none⟩, rest3,
        (loginFn (fuel+1) api codes st script (some code)).logins, 1⟩ ∧
    getChallengeCard (fuel+1) api codes st2 scriptB code =
      ⟨Except.error (.somfy ("Http error (" ++ toString rb.status ++ ")")),
        (loginFn (fuel+1) api codes st2 scriptB (some code)).st, restB,
        (loginFn (fuel+1) api codes st2 scriptB (some code)).logins, 0⟩ := by
  have hrcs' : (rc.status ≠ 200) = False := by simp [hrcs]
  have hrcd' : (rc.path = api.defaultPath) = False := by simp [hrcd]
  have hrce' : (rc.path = api.errorPath) = False := by simp [hrce]
  have hros' : (ro.status ≠ 200) = False := by simp [hros]
  have hroe' : (ro.path = api.errorPath) = False := by simp [hroe]
  have hrbs' : (rb.status ≠ 200) = True := by simp [hrbs]
  have hLo := (noLogouts (fuel+1)).2.1 api codes st script (some code)
  have hLBo := (noLogouts (fuel+1)).2.1 api codes st2 scriptB (some code)
  constructor
  · simp [getChallengeCard, logoutFn, doCall, hL, hLs, hrcs', hrcd', hrce',
      hros', hroe', hLo]
  · simp [getChallengeCard, doCall, hLB, hLBs, hrbs', hLBo]

/-- C4, witness: the amended theorem instantiated on a successful scrape
script and on a failing fetch script. -/
theorem c4_witness :
    getChallengeCard 12 sampleApi codes1 ⟨none⟩ [respLoginPost, respCard, respLogoutOk] "1111" =
      ⟨Except.ok (parseCardCells respCard.cells 0 0), ⟨none⟩, [],
        (loginFn 12 sampleApi codes1 ⟨none⟩ [respLoginPost, respCard, respLogoutOk] (some "1111")).logins, 1⟩ ∧
    getChallengeCard 12 sampleApi codes1 ⟨none⟩ [respLoginPost, resp500] "1111" =
      ⟨Except.error (.somfy ("Http error (" ++ toString resp500.status ++ ")")),
        (loginFn 12 sampleApi codes1 ⟨none⟩ [respLoginPost, resp500] (some "1111")).st, [],
        (loginFn 12 sampleApi codes1 ⟨none⟩ [respLoginPost, resp500] (some "1111")).logins, 0⟩ :=
  c4_amended_scoped_logout 11 sampleApi codes1 ⟨none⟩ ⟨none⟩ respCard respLogoutOk resp500
    [respLoginPost, respCard, respLogoutOk] [respLoginPost, resp500] [] [] "1111"
    rfl rfl rfl (by decide) (by decide) rfl (by decide) rfl rfl (by decide)

/-- C5, counterexample: a challenge-table miss during login surfaces a
raw Python KeyError — an untyped lookup exception, distinct from the typed
"Challenge not found" SomfyException — contradicting the claimed typed
ChallengeNotFound failure. -/
theorem c5_counterexample :
    (loginFn 6 sampleApi codesNone ⟨none⟩ [respLoginPage] none).res =
      Except.error (.keyError "A1") ∧
    Err.keyError "A1" ≠ Err.somfy "Challenge not found" :=
  ⟨rfl, by decide⟩

/-- C5 (amended): when no explicit code is supplied and the scraped
challenge string is absent from the code table, a direct login fails with
an untyped KeyError carrying the challenge; when the login was triggered
inside the call wrapper, the wrapper's catch-all converts it into the
generic "Something really wrong happened!" SomfyException — in neither
case a typed ChallengeNotFound error. -/
theorem c5_amended_challenge_miss
    (fuel : Nat) (api : Api) (codes : String → Option String) (st : St)
    (r : Response) (rest : List Response) (ch : String)
    (hrs : r.status = 200) (hrd : r.path ≠ api.defaultPath) (hre : r.path ≠ api.errorPath)
    (hch : r.challengeText = some ch) (hmiss : codes ch = none) :
    loginFn (fuel+3) api codes st (r :: rest) none =
      ⟨Except.error (.keyError ch), ⟨none⟩, rest, 1, 0⟩ ∧
    (∀ (d : Response) (m : Method) (p : PageRef) (auth lg : Bool),
      d.status = 200 → d.path = api.defaultPath →
      doCall (fuel+4) api codes st (d :: r :: rest) m p auth true lg =
        ⟨Except.error (.somfy ("Something really wrong happened! - " ++ pyStrKeyError ch)),
          ⟨none⟩, rest, 1, 0⟩) := by
  have hrs' : (r.status ≠ 200) = False := by simp [hrs]
  have hrd' : (r.path = api.defaultPath) = False := by simp [hrd]
  have hre' : (r.path = api.errorPath) = False := by simp [hre]
  have hmain : loginFn (fuel+3) api codes st (r :: rest) none =
      ⟨Except.error (.keyError ch), ⟨none⟩, rest, 1, 0⟩ := by
    simp [loginFn, getChallengeFn, doCall, hrs', hrd', hre', hch, hmiss]
  refine ⟨hmain, ?_⟩
  intro d m p auth lg hds hdp
  have hds' : (d.status ≠ 200) = False := by simp [hds]
  have hdp' : (d.path = api.defaultPath) = True := by simp [hdp]
  simp [doCall, hds', hdp', hmain, wrapErr]

/-- C5, witness: the amended theorem instantiated with an empty code
table and the challenge string A1. -/
theorem c5_witness :
    loginFn 6 sampleApi codesNone ⟨none⟩ [respLoginPage] none =
      ⟨Except.error (.keyError "A1"), ⟨none⟩, [], 1, 0⟩ ∧
    doCall 7 sampleApi codesNone ⟨none⟩ [respDefault, respLoginPage]
        .get (.page .pilotage) true true true =
      ⟨Except.error (.somfy ("Something really wrong happened! - " ++ pyStrKeyError "A1")),
        ⟨none⟩, [], 1, 0⟩ :=
  have h := c5_amended_challenge_miss 3 sampleApi codesNone ⟨none⟩ respLoginPage [] "A1"
    rfl (by decide) (by decide) rfl rfl
  ⟨h.1, h.2 respDefault .get (.page .pilotage) true true rfl rfl⟩

/-- Codepoints below the surrogate range round-trip through
`Char.ofNat`. -/
theorem charOfNatToNat (n : Nat) (h : n < 55296) : (Char.ofNat n).toNat = n := by
  have hv : n.isValidChar := Or.inl h
  simp [Char.ofNat, hv, Char.ofNatAux, Char.toNat, UInt32.toNat, BitVec.toNat_ofNatLt]

/-- `Char.isUpper` expressed over `Char.toNat`. -/
theorem charIsUpperEq (c : Char) : c.isUpper = decide (65 ≤ c.toNat ∧ c.toNat ≤ 90) := by
  simp [Char.isUpper, UInt32.le_def, BitVec.le_def, Char.toNat, UInt32.toNat]

/-- Lower-casing a printable-ASCII character yields a printable-ASCII,
non-uppercase character. -/
theorem toLowerKeeps (c : Char) (h : printableAscii c = true) :
    printableAscii c.toLower = true ∧ c.toLower.isUpper = false := by
  have hn : (32 ≤ c.toNat ∧ c.toNat ≤ 126) ∨ (9 ≤ c.toNat ∧ c.toNat ≤ 13) := by
    simpa [printableAscii] using h
  unfold Char.toLower
  by_cases hu : c.toNat ≥ 65 ∧ c.toNat ≤ 90
  · have h32 : (Char.ofNat (c.toNat + 32)).toNat = c.toNat + 32 := charOfNatToNat _ (by omega)
    simp only [hu, and_self, if_true, if_pos]
    constructor
    · simp [printableAscii, h32]; omega
    · simp [charIsUpperEq, h32]; omega
  · simp only [hu, if_neg, if_false]
    refine ⟨h, ?_⟩
    simp [charIsUpperEq]
    omega

/-- C6, counterexample: on the spec's concrete elements page the two
parsed elements carry comm = "itemhidden" (not the empty string) for the
absent elt_onde array — the claimed all-fields-empty default is false. -/
theorem c6_counterexample :
    parseElementsHtml html6 =
      [⟨"DO", "Porte", "1", "", "itemhidden", "", "", "", "", ""⟩,
       ⟨"DM", "Detecteur", "2", "", "itemhidden", "", "", "", "", ""⟩] ∧
    ("itemhidden" : String) ≠ "" :=
  ⟨by decide, by decide⟩

/-- C6 (amended): the element count is the minimum of the label/name/code
array lengths, and positions beyond a shorter optional array default to
the empty string for battery, door, zone, tamper, house and pause — but to
"itemhidden" for comm; on the spec's concrete page the two elements keep
their labels and names unchanged, with empty strings everywhere except
comm = "itemhidden". -/
theorem c6_amended :
    (∀ ll ln lc lp lo lpo lz la lm lpa : List String,
      (buildElements ll ln lc lp lo lpo lz la lm lpa).length =
        min (min ll.length ln.length) lc.length) ∧
    (∀ (ll ln lc lp lo lpo lz la lm lpa : List String) (i : Nat),
      i < min (min ll.length ln.length) lc.length →
      (buildElements ll ln lc lp lo lpo lz la lm lpa).getD i
          ⟨"", "", "", "", "", "", "", "", "", ""⟩ =
        ⟨fixMojibake (ll.getD i ""), fixMojibake (ln.getD i ""), lc.getD i "",
         if i < lp.length then lp.getD i "" else "",
         if i < lo.length then lo.getD i "" else "itemhidden",
         if i < lpo.length then lpo.getD i "" else "",
         if i < lz.length then fixMojibake (lz.getD i "") else "",
         if i < la.length then la.getD i "" else "",
         if i < lm.length then lm.getD i "" else "",
         if i < lpa.length then lpa.getD i "" else ""⟩) ∧
    parseElementsHtml html6 =
      [⟨"DO", "Porte", "1", "", "itemhidden", "", "", "", "", ""⟩,
       ⟨"DM", "Detecteur", "2", "", "itemhidden", "", "", "", "", ""⟩] := by
  refine ⟨?_, ?_, by decide⟩
  · intros; simp [buildElements]
  · intro ll ln lc lp lo lpo lz la lm lpa i h
    have h2 : i < ll.length ⊓ (ln.length ⊓ lc.length) := by omega
    simp [buildElements, List.getD_eq_getElem?_getD, List.getElem?_map, List.getElem?_range, h, h2]

/-- C6, witness: the per-index characterization instantiated at index 0
of a one-element page. -/
theorem c6_witness :
    (buildElements ["a"] ["b"] ["c"] [] [] [] [] [] [] []).getD 0
        ⟨"", "", "", "", "", "", "", "", "", ""⟩ =
      ⟨fixMojibake "a", fixMojibake "b", "c", "", "itemhidden", "", "", "", "", ""⟩ := by
  have h := c6_amended.2.1 ["a"] ["b"] ["c"] [] [] [] [] [] [] [] 0 (by decide)
  simpa using h

set_option maxRecDepth 20000 in
/-- C7, counterexample: the first candidate page fetches and decodes but
parses to zero elements, and `get_elements` returns the empty list without
ever fetching the second candidate — whose page would parse non-empty —
contradicting the claimed continue-on-empty-parse search. -/
theorem c7_counterexample :
    getElements 12 sampleApi codes1 ⟨some "SID"⟩ [respElemsEmpty, respElemsFull] =
      ⟨Except.ok [], ⟨some "SID"⟩, [respElemsFull], 0, 0⟩ ∧
    parseElementsHtml (elementsDecode respElemsFull.bodyBytes sampleApi.encoding) ≠ [] :=
  ⟨rfl, by decide⟩

/-- C7 (amended): `get_elements` tries the candidates in fixed order and
returns the parse of the first candidate whose fetch succeeds — even when
that parse is empty (the loop breaks before parsing); when all three
candidate fetches fail, it returns the empty list rather than an error. -/
theorem c7_amended
    (fuel : Nat) (api : Api) (codes : String → Option String) (st : St)
    (r e1 e2 e3 : Response) (rest : List Response)
    (hrs : r.status = 200) (hrd : r.path ≠ api.defaultPath) (hre : r.path ≠ api.errorPath)
    (h1 : e1.status ≠ 200) (h2 : e2.status ≠ 200) (h3 : e3.status ≠ 200) :
    getElements (fuel+1) api codes st (r :: rest) =
      ⟨Except.ok (parseElementsHtml (elementsDecode r.bodyBytes api.encoding)), st, rest, 0, 0⟩ ∧
    getElements (fuel+1) api codes st [e1, e2, e3] = ⟨Except.ok [], st, [], 0, 0⟩ := by
  have hrs' : (r.status ≠ 200) = False := by simp [hrs]
  have hrd' : (r.path = api.defaultPath) = False := by simp [hrd]
  have hre' : (r.path = api.errorPath) = False := by simp [hre]
  have h1' : (e1.status ≠ 200) = True := by simp [h1]
  have h2' : (e2.status ≠ 200) = True := by simp [h2]
  have h3' : (e3.status ≠ 200) = True := by simp [h3]
  constructor
  · simp [getElements, elementsFetch, doCall, hrs', hrd', hre']
  · simp [getElements, elementsFetch, doCall, h1', h2', h3']

/-- C7, witness: the amended theorem instantiated on a parse-bearing
first candidate and on three failing candidates. -/
theorem c7_witness :
    getElements 12 sampleApi codes1 ⟨some "SID"⟩ (respElemsFull :: []) =
      ⟨Except.ok (parseElementsHtml (elementsDecode respElemsFull.bodyBytes sampleApi.encoding)),
        ⟨some "SID"⟩, [], 0, 0⟩ ∧
    getElements 12 sampleApi codes1 ⟨some "SID"⟩ [resp500, resp500, resp500] =
      ⟨Except.ok [], ⟨some "SID"⟩, [], 0, 0⟩ :=
  c7_amended 11 sampleApi codes1 ⟨some "SID"⟩ respElemsFull resp500 resp500 resp500 []
    rfl (by decide) (by decide) (by decide) (by decide) (by decide)

/-- C8: the status parser maps the twelve fixed tag names to their Status
fields (each recognized child overwrites exactly its field with the
filtered text), ignores unrecognized tags, stores only printable-ASCII,
non-uppercase characters, reduces all-non-ASCII values to the empty
string, and on <defaut0>OK</defaut0><zone0>ON</zone0> yields
battery = "ok" and zoneA = "on". -/
theorem c8_status_parsing :
    (∀ (st : Status) (tag : String) (txt : Option String),
      tag ∉ ["defaut0", "defaut1", "defaut2", "defaut3", "defaut4",
             "zone0", "zone1", "zone2", "gsm", "recgsm", "opegsm", "camera"] →
      applyStatusChild st tag txt = st) ∧
    (∀ (st : Status) (txt : Option String),
      applyStatusChild st "defaut0" txt = { st with battery := filterAscii txt } ∧
      applyStatusChild st "defaut1" txt = { st with radio := filterAscii txt } ∧
      applyStatusChild st "defaut2" txt = { st with door := filterAscii txt } ∧
      applyStatusChild st "defaut3" txt = { st with alarm := filterAscii txt } ∧
      applyStatusChild st "defaut4" txt = { st with box := filterAscii txt } ∧
      applyStatusChild st "zone0" txt = { st with zoneA := filterAscii txt } ∧
      applyStatusChild st "zone1" txt = { st with zoneB := filterAscii txt } ∧
      applyStatusChild st "zone2" txt = { st with zoneC := filterAscii txt } ∧
      applyStatusChild st "gsm" txt = { st with gsm := filterAscii txt } ∧
      applyStatusChild st "recgsm" txt = { st with recgsm := filterAscii txt } ∧
      applyStatusChild st "opegsm" txt = { st with opegsm := filterAscii txt } ∧
      applyStatusChild st "camera" txt = { st with camera := filterAscii txt }) ∧
    (∀ s : String, (∀ c ∈ s.data, 128 ≤ c.toNat) → filterAsciiStr s = "") ∧
    (∀ s : String, ∀ c ∈ (filterAsciiStr s).data,
      printableAscii c = true ∧ c.isUpper = false) ∧
    statusFromChildren [("defaut0", some "OK"), ("zone0", some "ON")] =
      { battery := some "ok", zoneA := some "on" } := by
  refine ⟨?_, ?_, ?_, ?_, by decide⟩
  · intro st tag txt h
    simp only [List.mem_cons, List.not_mem_nil, or_false, not_or] at h
    obtain ⟨h1, h2, h3, h4, h5, h6, h7, h8, h9, h10, h11, h12⟩ := h
    simp [applyStatusChild, h1, h2, h3, h4, h5, h6, h7, h8, h9, h10, h11, h12]
  · intro st txt
    refine ⟨?_, ?_, ?_, ?_, ?_, ?_, ?_, ?_, ?_, ?_, ?_, ?_⟩ <;> simp [applyStatusChild]
  · intro s h
    have hf : s.data.filter printableAscii = [] := by
      rw [List.filter_eq_nil_iff]
      intro a ha
      have := h a ha
      simp [printableAscii]
      omega
    simp [filterAsciiStr, hf]
  · intro s c hc
    simp only [filterAsciiStr, List.mem_map] at hc
    obtain ⟨a, ha, rfl⟩ := hc
    have hp := List.of_mem_filter ha
    exact toLowerKeeps a hp

/-- C8, witness: unrecognized-tag and non-ASCII-filter parts instantiated
at concrete inputs. -/
theorem c8_witness :
    applyStatusChild {} "foo" (some "x") = ({} : Status) ∧
    filterAsciiStr "écrêté" = "crt" ∧
    (statusFromChildren [("defaut0", some "OK"), ("zone0", some "ON")]).battery = some "ok" ∧
    (statusFromChildren [("defaut0", some "OK"), ("zone0", some "ON")]).zoneA = some "on" :=
  ⟨c8_status_parsing.1 {} "foo" (some "x") (by decide),
   by decide,
   by rw [c8_status_parsing.2.2.2.2],
   by rw [c8_status_parsing.2.2.2.2]⟩

/-- C9, counterexample: a challenge text "A1XYZ" that does not match the
grammar "one letter A-F followed by one digit 1-5" as a whole string still
selects the first variant, because `re.match` only anchors at the start. -/
theorem c9_counterexample :
    guessAndSetApiType sampleApis [respVers, respLoginIo] = (Except.ok .protexialIo, []) ∧
    respLoginIo.challengeText = some "A1XYZ" ∧
    specChallengeExact "A1XYZ" = false :=
  ⟨rfl, rfl, rfl⟩

/-- C9 (amended): detection probes PROTEXIAL_IO, PROTEXIAL, PROTEXIOM in
order and selects the first variant whose declared version page fetches
with 200 and whose login-page challenge text begins with a letter A-F and
a digit 1-5 (prefix match), leaving the remaining script unconsumed (no
calls to later variants); a 302 during probing fails the whole detection
with the temporarily-unavailable error; when no variant matches it fails
with the detection error; every exact-grammar challenge also passes the
prefix test. -/
theorem c9_amended :
    (∀ (apis : ApiTypeT → Api) (vp : String) (v l : Response) (rest : List Response),
      (apis .protexialIo).versionPath = some vp →
      v.status = 200 → l.status = 200 →
      reMatchChallenge (l.challengeText.getD "") = true →
      guessAndSetApiType apis (v :: l :: rest) = (Except.ok .protexialIo, rest)) ∧
    (∀ (apis : ApiTypeT → Api) (vp : String) (v : Response) (rest : List Response),
      (apis .protexialIo).versionPath = some vp →
      v.status = 302 →
      guessAndSetApiType apis (v :: rest) =
        (Except.error (.somfy "Unavailable, please retry later"), rest)) ∧
    (∀ (apis : ApiTypeT → Api) (l1 l2 l3 : Response),
      (∀ t, (apis t).versionPath = none) →
      l1.status = 200 → l2.status = 200 → l3.status = 200 →
      reMatchChallenge (l1.challengeText.getD "") = false →
      reMatchChallenge (l2.challengeText.getD "") = false →
      reMatchChallenge (l3.challengeText.getD "") = false →
      guessAndSetApiType apis [l1, l2, l3] =
        (Except.error (.somfy "Couldn't detect the centrale type"), [])) ∧
    (∀ s : String, specChallengeExact s = true → reMatchChallenge s = true) := by
  refine ⟨?_, ?_, ?_, ?_⟩
  · intro apis vp v l rest hvp hv hl hre
    have hv' : (v.status = 200) = True := by simp [hv]
    have hl' : (l.status = 200) = True := by simp [hl]
    simp [guessAndSetApiType, guessList, guessProbe, guessLoginCheck, doGuessGet,
      hvp, hv', hl', hre]
  · intro apis vp v rest hvp hv
    have hv2 : (v.status = 200) = False := by simp [hv]
    have hv3 : (v.status = 302) = True := by simp [hv]
    simp [guessAndSetApiType, guessList, guessProbe, guessLoginCheck, doGuessGet,
      hvp, hv2, hv3]
  · intro apis l1 l2 l3 hvp h1 h2 h3 hr1 hr2 hr3
    have h1' : (l1.status = 200) = True := by simp [h1]
    have h2' : (l2.status = 200) = True := by simp [h2]
    have h3' : (l3.status = 200) = True := by simp [h3]
    simp [guessAndSetApiType, guessList, guessProbe, guessLoginCheck, doGuessGet,
      hvp, h1', h2', h3', hr1, hr2, hr3]
  · intro s h
    rcases hs : s.data with _ | ⟨a, _ | ⟨b, _ | ⟨c, tl⟩⟩⟩ <;>
      simp [specChallengeExact, reMatchChallenge, hs] at h ⊢ <;> exact h

/-- C9, witness: the amended theorem instantiated on concrete variant
tables and scripts. -/
theorem c9_witness :
    guessAndSetApiType sampleApis (respVers :: respLoginIo :: []) = (Except.ok .protexialIo, []) ∧
    guessAndSetApiType sampleApis (resp302 :: []) =
      (Except.error (.somfy "Unavailable, please retry later"), []) ∧
    guessAndSetApiType apisNoVers [respLoginBad, respLoginBad, respLoginBad] =
      (Except.error (.somfy "Couldn't detect the centrale type"), []) ∧
    reMatchChallenge "A1" = true :=
  ⟨c9_amended.1 sampleApis "/io/vers" respVers respLoginIo [] rfl rfl rfl rfl,
   c9_amended.2.1 sampleApis "/io/vers" resp302 [] rfl rfl,
   c9_amended.2.2.1 apisNoVers respLoginBad respLoginBad respLoginBad
     (fun _ => rfl) rfl rfl rfl rfl rfl rfl,
   c9_amended.2.2.2 "A1" rfl⟩
